import Mathlib

/-!
Shallow embedding of the `project_astro` repository (two Flask services):

* `kali_api_server.py` — the Tool Dispatch Service: one route per security
  tool; each route validates its JSON parameters, builds a shell command
  string, and hands it to `execute_command` (the Process Executor).
* `mcp_server.py` — the Gateway/Relay Service: a generic
  `/mcp/tools/kali_tools/<tool_name>` route that checks the tool registry,
  health-probes the Dispatch Service, forwards the request, and relays the
  response.

Pure logic (string validation, command construction, branching on request
fields and on the outcomes of I/O actions) is embedded as total Lean
functions; the I/O actions themselves (the subprocess call, the two HTTP
requests the Gateway makes) are abstracted as inductive outcome values that
the embedded control flow branches on, exactly as the Python code branches
on their results or exceptions.
-/

/-! ## Python string primitives used by the validation code -/

/-- Python `c in s` for a character `c` and string `s` (character membership;
the source only ever uses it with single-character constants). -/
def pyIn (c : Char) (s : String) : Bool :=
  s.data.any (fun x => x == c)

/-- Python `all(p(c) for c in s)`: `p` holds of every character of `s`. -/
def pyAllChars (s : String) (p : Char → Bool) : Bool :=
  s.data.all p

/-- Python `str.isalnum` for one character, modelled exactly on the code
points below 256 (ASCII plus Latin-1): ASCII letters and digits; and in
Latin-1 the characters `ª µ ² ³ ¹ º ¼ ½ ¾` and the letter block U+00C0–U+00FF
minus `×` (U+00D7) and `÷` (U+00F7), all of which Python classifies as
alphanumeric.  Code points at 256 and above (not exercised by any theorem
below) are mapped to `false`, an under-approximation of CPython, which
accepts every Unicode letter and numeral. -/
def pyIsAlnum (c : Char) : Bool :=
  if c.toNat < 128 then c.isAlphanum
  else if c.toNat < 256 then
    c.toNat == 0xAA || c.toNat == 0xB5 || c.toNat == 0xBA ||
    c.toNat == 0xB2 || c.toNat == 0xB3 || c.toNat == 0xB9 ||
    (0xBC ≤ c.toNat && c.toNat ≤ 0xBE) ||
    (0xC0 ≤ c.toNat && c.toNat ≠ 0xD7 && c.toNat ≠ 0xF7)
  else false

/-- Python `c.isdigit()` restricted to ASCII (all characters the port
validation ever sees are ASCII; above ASCII this under-approximates CPython
as in `pyIsAlnum`). -/
def pyIsDigit (c : Char) : Bool :=
  c.isDigit

/-- The repeated guard `";" in s or "&" in s or "|" in s` applied to
`additional_args` by eight of the nine tool routes. -/
def hasShellMeta (s : String) : Bool :=
  pyIn ';' s || pyIn '&' s || pyIn '|' s

/-! ## The Process Executor (`execute_command`, kali_api_server.py:44-95) -/

/-- Outcome of the underlying `subprocess.Popen` / `communicate(timeout=300)`
call, abstracting the one I/O action `execute_command` performs:
the process completed (with captured stdout, stderr and exit code),
the 300-second timeout expired (`subprocess.TimeoutExpired`), or some other
exception carrying message `msg` was raised. -/
inductive ProcOutcome where
  | completed (stdout stderr : String) (returnCode : Int)
  | timedOut
  | failed (msg : String)
deriving DecidableEq, Repr

/-- The record `execute_command` returns on every path. -/
structure ExecutionResult where
  stdout : String
  stderr : String
  return_code : Int
  success : Bool
deriving DecidableEq, Repr

/-- `execute_command` (kali_api_server.py:44-95): runs the command through a
shell and returns an `ExecutionResult` on every path.  `try:` completion
returns the captured streams with `success = (return_code == 0)`;
`except subprocess.TimeoutExpired:` returns the fixed timeout record;
`except Exception as e:` returns the error record embedding `str(e)`.
Totality of this Lean function is the embedded form of "never propagates an
exception to its caller": every constructor of `ProcOutcome` is mapped to a
returned `ExecutionResult`. -/
def execute_command (o : ProcOutcome) : ExecutionResult :=
  match o with
  | .completed stdout stderr returnCode =>
      { stdout := stdout
        stderr := stderr
        return_code := returnCode
        success := returnCode == 0 }
  | .timedOut =>
      { stdout := ""
        stderr := "Command execution timed out after 300 seconds"
        return_code := -1
        success := false }
  | .failed msg =>
      { stdout := ""
        stderr := "Error executing command: " ++ msg
        return_code := -1
        success := false }

/-! ## Tool routes of the Dispatch Service

Each route is embedded as a function from its (already JSON-decoded)
parameter record to a `RouteOutcome`: either the route returns early with
`jsonify({"error": ...}), 400` — constructor `reject`, which in the Python
code happens strictly before `execute_command` is reached — or it falls
through to `result = execute_command(command)` with the fully built command
string — constructor `exec`.  Field defaults mirror the `params.get(key,
default)` defaults of the code. -/

inductive RouteOutcome where
  | reject (status : Nat) (error : String)
  | exec (command : String)
deriving DecidableEq, Repr

/-- `some status` when the route responded without invoking the Executor. -/
def RouteOutcome.rejectStatus : RouteOutcome → Option Nat
  | .reject s _ => some s
  | .exec _ => none

/-- `true` exactly when the route reached `execute_command`. -/
def RouteOutcome.isExec : RouteOutcome → Bool
  | .reject _ _ => false
  | .exec _ => true

/-- Parameters of the nmap route (kali_api_server.py:97-150). -/
structure NmapParams where
  target : String := ""
  scan_type : String := "-sV"
  ports : String := ""
  additional_args : String := ""
deriving DecidableEq, Repr

/-- The nmap route (kali_api_server.py:97-150): requires `target`; validates
`target` against `isalnum or in ".-_"`; builds `"nmap {scan_type}"`; if
`ports` is non-empty validates it against `isdigit or in ",-"` and appends
`" -p {ports}"`; if `additional_args` is non-empty rejects on `; & |` and
appends it; finally appends `" {target}"` and executes. -/
def nmapRoute (p : NmapParams) : RouteOutcome :=
  if p.target = "" then
    .reject 400 "Target parameter is required"
  else if !(pyAllChars p.target (fun c => pyIsAlnum c || pyIn c ".-_")) then
    .reject 400 "Invalid target parameter"
  else
    let command := "nmap " ++ p.scan_type
    if p.ports ≠ "" ∧ !(pyAllChars p.ports (fun c => pyIsDigit c || pyIn c ",-")) then
      .reject 400 "Invalid ports parameter"
    else
      let command := if p.ports ≠ "" then command ++ " -p " ++ p.ports else command
      if p.additional_args ≠ "" ∧ hasShellMeta p.additional_args then
        .reject 400 "Invalid additional_args parameter"
      else
        let command :=
          if p.additional_args ≠ "" then command ++ " " ++ p.additional_args else command
        .exec (command ++ " " ++ p.target)

/-- Parameters of the gobuster route (kali_api_server.py:152-195). -/
structure GobusterParams where
  url : String := ""
  mode : String := "dir"
  wordlist : String := "/usr/share/wordlists/dirb/common.txt"
  additional_args : String := ""
deriving DecidableEq, Repr

/-- The gobuster route (kali_api_server.py:152-195): requires `url`; checks
`mode` against the fixed enumeration; builds
`"gobuster {mode} -u {url} -w {wordlist}"`; rejects non-empty
`additional_args` containing `; & |`, otherwise appends it; executes.
The `url` value itself undergoes no character validation. -/
def gobusterRoute (p : GobusterParams) : RouteOutcome :=
  if p.url = "" then
    .reject 400 "URL parameter is required"
  else if !(p.mode == "dir" || p.mode == "dns" || p.mode == "fuzz" || p.mode == "vhost") then
    .reject 400 ("Invalid mode: " ++ p.mode ++ ". Must be one of: dir, dns, fuzz, vhost")
  else
    let command := "gobuster " ++ p.mode ++ " -u " ++ p.url ++ " -w " ++ p.wordlist
    if p.additional_args ≠ "" ∧ hasShellMeta p.additional_args then
      .reject 400 "Invalid additional_args parameter"
    else
      let command :=
        if p.additional_args ≠ "" then command ++ " " ++ p.additional_args else command
      .exec command

/-- Parameters of the dirb route (kali_api_server.py:197-232). -/
structure DirbParams where
  url : String := ""
  wordlist : String := "/usr/share/wordlists/dirb/common.txt"
  additional_args : String := ""
deriving DecidableEq, Repr

/-- The dirb route (kali_api_server.py:197-232): requires `url`; builds
`"dirb {url} {wordlist}"`; rejects non-empty `additional_args` containing
`; & |`, otherwise appends it; executes.  No character validation of `url`. -/
def dirbRoute (p : DirbParams) : RouteOutcome :=
  if p.url = "" then
    .reject 400 "URL parameter is required"
  else
    let command := "dirb " ++ p.url ++ " " ++ p.wordlist
    if p.additional_args ≠ "" ∧ hasShellMeta p.additional_args then
      .reject 400 "Invalid additional_args parameter"
    else
      let command :=
        if p.additional_args ≠ "" then command ++ " " ++ p.additional_args else command
      .exec command

/-- Parameters of the nikto route (kali_api_server.py:234-268). -/
structure NiktoParams where
  target : String := ""
  additional_args : String := ""
deriving DecidableEq, Repr

/-- The nikto route (kali_api_server.py:234-268): requires `target`; builds
`"nikto -h {target}"`; rejects non-empty `additional_args` containing
`; & |`, otherwise appends it; executes.  No character validation of
`target`. -/
def niktoRoute (p : NiktoParams) : RouteOutcome :=
  if p.target = "" then
    .reject 400 "Target parameter is required"
  else
    let command := "nikto -h " ++ p.target
    if p.additional_args ≠ "" ∧ hasShellMeta p.additional_args then
      .reject 400 "Invalid additional_args parameter"
    else
      let command :=
        if p.additional_args ≠ "" then command ++ " " ++ p.additional_args else command
      .exec command

/-- Parameters of the sqlmap route (kali_api_server.py:270-308). -/
structure SqlmapParams where
  url : String := ""
  data : String := ""
  additional_args : String := ""
deriving DecidableEq, Repr

/-- The sqlmap route (kali_api_server.py:270-308): requires `url`; builds
`"sqlmap -u {url}"`; if `data` is non-empty appends
`" --data=\"{data}\""` (unvalidated); rejects non-empty `additional_args`
containing `; & |`, otherwise appends it; executes.  No character
validation of `url` or `data`. -/
def sqlmapRoute (p : SqlmapParams) : RouteOutcome :=
  if p.url = "" then
    .reject 400 "URL parameter is required"
  else
    let command := "sqlmap -u " ++ p.url
    let command :=
      if p.data ≠ "" then command ++ " --data=\"" ++ p.data ++ "\"" else command
    if p.additional_args ≠ "" ∧ hasShellMeta p.additional_args then
      .reject 400 "Invalid additional_args parameter"
    else
      let command :=
        if p.additional_args ≠ "" then command ++ " " ++ p.additional_args else command
      .exec command

/-- Parameters of the metasploit route (kali_api_server.py:310-367); the
`options` mapping is carried as an association list in iteration order. -/
structure MetasploitParams where
  module : String := ""
  options : List (String × String) := []
deriving DecidableEq, Repr

/-- The resource-script text the metasploit route writes to
`/tmp/mcp_msf_resource.rc` (kali_api_server.py:338-341). -/
def msfResourceContent (p : MetasploitParams) : String :=
  "use " ++ p.module ++ "\n" ++
  (p.options.foldl (fun acc kv => acc ++ "set " ++ kv.1 ++ " " ++ kv.2 ++ "\n") "") ++
  "exploit\n"

/-- The metasploit route (kali_api_server.py:310-367): requires `module`;
validates `module` against `isalnum or in "/._-"`; writes the resource
script and executes the fixed command `msfconsole -q -r
/tmp/mcp_msf_resource.rc`. -/
def metasploitRoute (p : MetasploitParams) : RouteOutcome :=
  if p.module = "" then
    .reject 400 "Module parameter is required"
  else if !(pyAllChars p.module (fun c => pyIsAlnum c || pyIn c "/._-")) then
    .reject 400 "Invalid module parameter"
  else
    .exec "msfconsole -q -r /tmp/mcp_msf_resource.rc"

/-- Parameters of the hydra route (kali_api_server.py:369-440). -/
structure HydraParams where
  target : String := ""
  service : String := ""
  username : String := ""
  username_file : String := ""
  password : String := ""
  password_file : String := ""
  additional_args : String := ""
deriving DecidableEq, Repr

/-- The hydra route (kali_api_server.py:369-440): requires `target` and
`service`, and one of `username`/`username_file` and one of
`password`/`password_file`; validates `target` against `isalnum or in
".-_:"` and `service` against `isalnum or in "._-"`; builds `"hydra -t 4"`
plus the username/password flags; rejects non-empty `additional_args`
containing `; & |`, otherwise appends it; appends `" {target} {service}"`
and executes. -/
def hydraRoute (p : HydraParams) : RouteOutcome :=
  if p.target = "" ∨ p.service = "" then
    .reject 400 "Target and service parameters are required"
  else if (p.username = "" ∧ p.username_file = "") ∨ (p.password = "" ∧ p.password_file = "") then
    .reject 400 "Username/username_file and password/password_file are required"
  else if !(pyAllChars p.target (fun c => pyIsAlnum c || pyIn c ".-_:")) then
    .reject 400 "Invalid target parameter"
  else if !(pyAllChars p.service (fun c => pyIsAlnum c || pyIn c "._-")) then
    .reject 400 "Invalid service parameter"
  else
    let command := "hydra -t 4"
    let command :=
      if p.username ≠ "" then command ++ " -l " ++ p.username
      else if p.username_file ≠ "" then command ++ " -L " ++ p.username_file
      else command
    let command :=
      if p.password ≠ "" then command ++ " -p " ++ p.password
      else if p.password_file ≠ "" then command ++ " -P " ++ p.password_file
      else command
    if p.additional_args ≠ "" ∧ hasShellMeta p.additional_args then
      .reject 400 "Invalid additional_args parameter"
    else
      let command :=
        if p.additional_args ≠ "" then command ++ " " ++ p.additional_args else command
      .exec (command ++ " " ++ p.target ++ " " ++ p.service)

/-- Parameters of the john route (kali_api_server.py:442-492); the JSON key
`"format"` is read into the variable `format_type` in the code. -/
structure JohnParams where
  hash_file : String := ""
  wordlist : String := ""
  format_type : String := ""
  additional_args : String := ""
deriving DecidableEq, Repr

/-- The john route (kali_api_server.py:442-492): requires `hash_file`;
if `format` is non-empty validates it against `isalnum or in "-_"` and
appends `" --format={format}"`; if `wordlist` is non-empty appends
`" --wordlist={wordlist}"` (unvalidated); rejects non-empty
`additional_args` containing `; & |`, otherwise appends it; appends
`" {hash_file}"` and executes. -/
def johnRoute (p : JohnParams) : RouteOutcome :=
  if p.hash_file = "" then
    .reject 400 "Hash file parameter is required"
  else if p.format_type ≠ "" ∧ !(pyAllChars p.format_type (fun c => pyIsAlnum c || pyIn c "-_")) then
    .reject 400 "Invalid format parameter"
  else
    let command := "john"
    let command :=
      if p.format_type ≠ "" then command ++ " --format=" ++ p.format_type else command
    let command :=
      if p.wordlist ≠ "" then command ++ " --wordlist=" ++ p.wordlist else command
    if p.additional_args ≠ "" ∧ hasShellMeta p.additional_args then
      .reject 400 "Invalid additional_args parameter"
    else
      let command :=
        if p.additional_args ≠ "" then command ++ " " ++ p.additional_args else command
      .exec (command ++ " " ++ p.hash_file)

/-- Parameters of the wpscan route (kali_api_server.py:494-528). -/
structure WpscanParams where
  url : String := ""
  additional_args : String := ""
deriving DecidableEq, Repr

/-- The wpscan route (kali_api_server.py:494-528): requires `url`; builds
`"wpscan --url {url}"`; rejects non-empty `additional_args` containing
`; & |`, otherwise appends it; executes.  No character validation of
`url`. -/
def wpscanRoute (p : WpscanParams) : RouteOutcome :=
  if p.url = "" then
    .reject 400 "URL parameter is required"
  else
    let command := "wpscan --url " ++ p.url
    if p.additional_args ≠ "" ∧ hasShellMeta p.additional_args then
      .reject 400 "Invalid additional_args parameter"
    else
      let command :=
        if p.additional_args ≠ "" then command ++ " " ++ p.additional_args else command
      .exec command

/-- Parameters of the enum4linux route (kali_api_server.py:530-562); note
the non-empty default `"-a"` for `additional_args`. -/
structure Enum4linuxParams where
  target : String := ""
  additional_args : String := "-a"
deriving DecidableEq, Repr

/-- The enum4linux route (kali_api_server.py:530-562): requires `target`;
validates `target` against `isalnum or in ".-_:"`; then builds
`"enum4linux {additional_args} {target}"` and executes.  Unlike every other
route taking `additional_args`, this route performs no check of
`additional_args` at all (no `; & |` guard). -/
def enum4linuxRoute (p : Enum4linuxParams) : RouteOutcome :=
  if p.target = "" then
    .reject 400 "Target parameter is required"
  else if !(pyAllChars p.target (fun c => pyIsAlnum c || pyIn c ".-_:")) then
    .reject 400 "Invalid target parameter"
  else
    .exec ("enum4linux " ++ p.additional_args ++ " " ++ p.target)

/-! ## The Dispatch-side `/mcp/tools/kali_tools/<tool_name>` stub -/

/-- The Dispatch Service's own `/mcp/tools/kali_tools/<tool_name>` route
(kali_api_server.py:673-676).  Its body is the single statement `pass`, so
the view function returns Python `None` for every tool name: it produces no
`(status, body)` response of its own (in particular no 400), makes no
registry check, and never reaches `execute_command`. -/
def kali_api_execute_tool (_tool_name : String) : Option (Nat × String) :=
  none

/-! ## The Gateway (`mcp_server.py`) -/

/-- The tool registry `KALI_TOOLS` (mcp_server.py:47-58): tool name to
Dispatch endpoint path. -/
def KALI_TOOLS : List (String × String) :=
  [("nmap", "/api/tools/nmap"),
   ("gobuster", "/api/tools/gobuster"),
   ("dirb", "/api/tools/dirb"),
   ("nikto", "/api/tools/nikto"),
   ("sqlmap", "/api/tools/sqlmap"),
   ("metasploit", "/api/tools/metasploit"),
   ("hydra", "/api/tools/hydra"),
   ("john", "/api/tools/john"),
   ("wpscan", "/api/tools/wpscan"),
   ("enum4linux", "/api/tools/enum4linux")]

/-- Python `tool_name in KALI_TOOLS` (dictionary key membership). -/
def toolRegistered (tool_name : String) : Bool :=
  KALI_TOOLS.any (fun kv => kv.1 == tool_name)

/-- Outcome of the Gateway's health probe
`requests.get(f"{KALI_API_BASE_URL}/health", timeout=5)`: either an HTTP
response with some status code, or a `requests.RequestException` carrying
message `msg`. -/
inductive ProbeOutcome where
  | response (status : Nat)
  | connError (msg : String)
deriving DecidableEq, Repr

/-- Outcome of the Gateway's forward
`requests.post(f"{KALI_API_BASE_URL}{KALI_TOOLS[tool_name]}", json=params,
timeout=300)`: an HTTP response with a status code, the result of
`response.json()` (`some r` when the body parses as an `ExecutionResult`,
`none` when parsing raises `json.JSONDecodeError`) and the raw
`response.text`; or a `requests.RequestException`. -/
inductive UpstreamOutcome where
  | response (status : Nat) (parsed : Option ExecutionResult) (text : String)
  | connError (msg : String)
deriving DecidableEq, Repr

/-- What the Gateway's `execute_tool` route sends back. `reject` means the
route responded before `requests.post` was reached (unknown tool, or failed
health probe), so no forward was attempted; `afterForward` means the
forward POST was made and the route responded with the given status and
body. -/
inductive GatewayOutcome where
  | reject (status : Nat) (message : String)
  | afterForward (status : Nat) (success : Bool) (tool : String)
      (results : Option ExecutionResult) (message : String)
deriving DecidableEq, Repr

/-- The `results` record of a Gateway success response, when there is one. -/
def GatewayOutcome.results? : GatewayOutcome → Option ExecutionResult
  | .afterForward _ true _ r _ => r
  | _ => none

/-- The Gateway's `execute_tool` route (mcp_server.py:88-168), with the two
outbound HTTP calls abstracted by `probe` and `upstream`:
unknown tool → 400; health probe exception → 503; health probe non-200 →
503; then the forward POST: connection exception → 500; upstream 200 with
parseable JSON → 200 `{status:"success", tool, results}` where `results`
is the parsed upstream body, unchanged; upstream 200 with unparseable body
→ 500; upstream non-200 → relay the upstream status. -/
def mcp_execute_tool (tool_name : String) (probe : ProbeOutcome)
    (upstream : UpstreamOutcome) : GatewayOutcome :=
  if !toolRegistered tool_name then
    .reject 400 ("Unknown tool: " ++ tool_name)
  else
    match probe with
    | .connError e =>
        .reject 503 ("API server is not responding: " ++ e)
    | .response s =>
        if s ≠ 200 then
          .reject 503 ("API server health check failed: " ++ toString s)
        else
          match upstream with
          | .connError e =>
              .afterForward 500 false tool_name none ("Error executing tool: " ++ e)
          | .response ustatus parsed text =>
              if ustatus = 200 then
                match parsed with
                | some result =>
                    .afterForward 200 true tool_name (some result) ""
                | none =>
                    .afterForward 500 false tool_name none "Error parsing API response"
              else
                .afterForward ustatus false tool_name none
                  ("Tool execution failed: " ++ text)

/-! ## Character classes named by the specification

These two definitions are transcribed from the specification's words, not
from the code; they exist to compare the spec's claimed allow-lists with the
checks the code actually performs. -/

/-- Modelled from the spec: the target character class `[A-Za-z0-9._-:]`
("a target field restricted to `[A-Za-z0-9._-:]`"). -/
def specTargetChar (c : Char) : Bool :=
  c.isAlphanum || c == '.' || c == '_' || c == '-' || c == ':'

/-- Modelled from the spec: the module-path character class (alphanumeric
plus `/._-`). -/
def specModuleChar (c : Char) : Bool :=
  c.isAlphanum || c == '/' || c == '.' || c == '_' || c == '-'

/-- Modelled from the spec: the format-string character class the john
route enforces (alphanumeric plus `-_`). -/
def specFormatChar (c : Char) : Bool :=
  c.isAlphanum || c == '-' || c == '_'

/-! ## Helper lemmas -/

/-- A string with a member character is non-empty. -/
lemma String.ne_empty_of_mem_data {s : String} {c : Char} (hm : c ∈ s.data) : s ≠ "" := by
  intro h
  subst h
  simp at hm

/-- `pyAllChars` fails as soon as one member character fails the test. -/
lemma pyAllChars_eq_false_of_mem {s : String} {c : Char} {p : Char → Bool}
    (hm : c ∈ s.data) (hp : p c = false) : pyAllChars s p = false := by
  unfold pyAllChars
  rw [Bool.eq_false_iff]
  intro hall
  have := List.all_eq_true.mp hall c hm
  simp [hp] at this

/-- On ASCII code points, `pyIsAlnum` is exactly `Char.isAlphanum`. -/
lemma pyIsAlnum_ascii {c : Char} (hascii : c.toNat < 128) :
    pyIsAlnum c = c.isAlphanum := by
  simp [pyIsAlnum, hascii]

/-- An ASCII character outside the spec's target class `[A-Za-z0-9._-:]`
fails the nmap target check (alphanumeric or `.-_`). -/
lemma nmap_target_char_fails {c : Char} (hascii : c.toNat < 128)
    (hc : specTargetChar c = false) :
    (pyIsAlnum c || pyIn c ".-_") = false := by
  simp only [specTargetChar, Bool.or_eq_false_iff, beq_eq_false_iff_ne] at hc
  obtain ⟨⟨⟨⟨halnum, hdot⟩, hund⟩, hdash⟩, _⟩ := hc
  simp only [pyIsAlnum_ascii hascii, pyIn, show (".-_").data = ['.', '-', '_'] from rfl]
  simp [beq_eq_false_iff_ne, halnum]
  exact ⟨Ne.symm hdot, Ne.symm hdash, Ne.symm hund⟩

/-- An ASCII character outside the spec's target class `[A-Za-z0-9._-:]`
fails the hydra/enum4linux target check (alphanumeric or `.-_:`). -/
lemma hydra_target_char_fails {c : Char} (hascii : c.toNat < 128)
    (hc : specTargetChar c = false) :
    (pyIsAlnum c || pyIn c ".-_:") = false := by
  simp only [specTargetChar, Bool.or_eq_false_iff, beq_eq_false_iff_ne] at hc
  obtain ⟨⟨⟨⟨halnum, hdot⟩, hund⟩, hdash⟩, hcolon⟩ := hc
  simp only [pyIsAlnum_ascii hascii, pyIn, show (".-_:").data = ['.', '-', '_', ':'] from rfl]
  simp [beq_eq_false_iff_ne, halnum]
  exact ⟨Ne.symm hdot, Ne.symm hdash, Ne.symm hund, Ne.symm hcolon⟩

/-- An ASCII character outside the spec's module class (alphanumeric plus
`/._-`) fails the metasploit module check. -/
lemma module_char_fails {c : Char} (hascii : c.toNat < 128)
    (hc : specModuleChar c = false) :
    (pyIsAlnum c || pyIn c "/._-") = false := by
  simp only [specModuleChar, Bool.or_eq_false_iff, beq_eq_false_iff_ne] at hc
  obtain ⟨⟨⟨⟨halnum, hslash⟩, hdot⟩, hund⟩, hdash⟩ := hc
  simp only [pyIsAlnum_ascii hascii, pyIn, show ("/._-").data = ['/', '.', '_', '-'] from rfl]
  simp [beq_eq_false_iff_ne, halnum]
  exact ⟨Ne.symm hslash, Ne.symm hdot, Ne.symm hund, Ne.symm hdash⟩

/-- An ASCII character outside the spec's format class (alphanumeric plus
`-_`) fails the john format check. -/
lemma format_char_fails {c : Char} (hascii : c.toNat < 128)
    (hc : specFormatChar c = false) :
    (pyIsAlnum c || pyIn c "-_") = false := by
  simp only [specFormatChar, Bool.or_eq_false_iff, beq_eq_false_iff_ne] at hc
  obtain ⟨⟨halnum, hdash⟩, hund⟩ := hc
  simp only [pyIsAlnum_ascii hascii, pyIn, show ("-_").data = ['-', '_'] from rfl]
  simp [beq_eq_false_iff_ne, halnum]
  exact ⟨Ne.symm hdash, Ne.symm hund⟩

/-! ## Claim theorems -/

/-- C1: For the nmap route, a POST body with target `"10.10.10.10"`,
scan_type `"-sV"`, and ports `"80,443"` makes the command builder produce
exactly `"nmap -sV -p 80,443 10.10.10.10"` (base token, scan_type,
`-p <ports>`, target, one space between tokens) before the Executor is
invoked. -/
theorem nmap_end_to_end_command :
    nmapRoute { target := "10.10.10.10", scan_type := "-sV", ports := "80,443" } =
      .exec "nmap -sV -p 80,443 10.10.10.10" := by
  decide

/-- C3: the Executor returns an `ExecutionResult` on every path (the route
function is total over all subprocess outcomes, which embeds "never
propagates an exception"); on timeout it returns empty stdout, the timeout
message, return code `-1`, success `false`; on any other execution failure
it returns empty stdout, the exception message (prefixed `"Error executing
command: "`) in stderr, return code `-1`, success `false`; a completed
process has its streams and exit code passed through. -/
theorem execute_command_error_paths (msg stdout stderr : String) (rc : Int) :
    execute_command .timedOut =
      { stdout := "", stderr := "Command execution timed out after 300 seconds",
        return_code := -1, success := false } ∧
    execute_command (.failed msg) =
      { stdout := "", stderr := "Error executing command: " ++ msg,
        return_code := -1, success := false } ∧
    execute_command (.completed stdout stderr rc) =
      { stdout := stdout, stderr := stderr, return_code := rc, success := rc == 0 } :=
  ⟨rfl, rfl, rfl⟩

/-- C9: every `ExecutionResult` the Executor produces satisfies
`success = (return_code == 0)`, on the normal, timeout, and failure paths
alike. -/
theorem execute_command_success_invariant (o : ProcOutcome) :
    (execute_command o).success = ((execute_command o).return_code == 0) := by
  cases o <;> rfl

/-- C10: the nmap route performs no validation of `scan_type` whatsoever:
whenever the target passes its check (and ports / additional_args are the
empty-string defaults), the built command is literally
`"nmap " ++ scan_type ++ " " ++ target`, so any scan_type — shell
metacharacters included — reaches the Executor verbatim. -/
theorem nmap_scan_type_unfiltered (target scan_type : String)
    (ht : target ≠ "")
    (hv : pyAllChars target (fun c => pyIsAlnum c || pyIn c ".-_") = true) :
    nmapRoute { target := target, scan_type := scan_type } =
      .exec ("nmap " ++ scan_type ++ " " ++ target) := by
  simp [nmapRoute, ht, hv]

/-- Witness for C10 at a concrete input: scan_type `";id"` (containing the
shell metacharacter `;`) reaches the Executor unmodified. -/
theorem nmap_scan_type_unfiltered_witness :
    nmapRoute { target := "10.10.10.10", scan_type := ";id" } =
      .exec ("nmap " ++ ";id" ++ " " ++ "10.10.10.10") :=
  nmap_scan_type_unfiltered "10.10.10.10" ";id" (by decide) (by decide)


/-- C2 counterexample: the enum4linux route does not validate
`additional_args` at all.  With a valid target and
`additional_args = ";id"` (which contains `;`), the route does not respond
400 — it builds `"enum4linux ;id 10.10.10.10"` and invokes the Executor. -/
theorem enum4linux_additional_args_counterexample :
    hasShellMeta ";id" = true ∧
    enum4linuxRoute { target := "10.10.10.10", additional_args := ";id" } =
      .exec "enum4linux ;id 10.10.10.10" := by
  decide

set_option maxHeartbeats 1600000 in
/-- C2 as amended: on every tool route that accepts *and checks*
`additional_args` — nmap, gobuster, dirb, nikto, sqlmap, hydra, john,
wpscan — a non-empty `additional_args` containing `;`, `&` or `|` makes the
route respond 400 without invoking the Executor; the enum4linux route also
accepts `additional_args` but performs no such check and passes it into the
executed command. -/
theorem additional_args_shell_meta_rejected (p1 : NmapParams) (p2 : GobusterParams)
    (p3 : DirbParams) (p4 : NiktoParams) (p5 : SqlmapParams) (p6 : HydraParams)
    (p7 : JohnParams) (p8 : WpscanParams)
    (h1 : p1.additional_args ≠ "") (m1 : hasShellMeta p1.additional_args = true)
    (h2 : p2.additional_args ≠ "") (m2 : hasShellMeta p2.additional_args = true)
    (h3 : p3.additional_args ≠ "") (m3 : hasShellMeta p3.additional_args = true)
    (h4 : p4.additional_args ≠ "") (m4 : hasShellMeta p4.additional_args = true)
    (h5 : p5.additional_args ≠ "") (m5 : hasShellMeta p5.additional_args = true)
    (h6 : p6.additional_args ≠ "") (m6 : hasShellMeta p6.additional_args = true)
    (h7 : p7.additional_args ≠ "") (m7 : hasShellMeta p7.additional_args = true)
    (h8 : p8.additional_args ≠ "") (m8 : hasShellMeta p8.additional_args = true) :
    (nmapRoute p1).rejectStatus = some 400 ∧
    (gobusterRoute p2).rejectStatus = some 400 ∧
    (dirbRoute p3).rejectStatus = some 400 ∧
    (niktoRoute p4).rejectStatus = some 400 ∧
    (sqlmapRoute p5).rejectStatus = some 400 ∧
    (hydraRoute p6).rejectStatus = some 400 ∧
    (johnRoute p7).rejectStatus = some 400 ∧
    (wpscanRoute p8).rejectStatus = some 400 ∧
    (enum4linuxRoute { target := "10.10.10.10", additional_args := ";id" }).isExec = true := by
  refine ⟨?_, ?_, ?_, ?_, ?_, ?_, ?_, ?_, by decide⟩
  · simp only [nmapRoute]
    split_ifs <;> first | rfl | tauto
  · simp only [gobusterRoute]
    split_ifs <;> first | rfl | tauto
  · simp only [dirbRoute]
    split_ifs <;> first | rfl | tauto
  · simp only [niktoRoute]
    split_ifs <;> first | rfl | tauto
  · simp only [sqlmapRoute]
    split_ifs <;> first | rfl | tauto
  · simp only [hydraRoute]
    split_ifs <;> first | rfl | tauto
  · simp only [johnRoute]
    split_ifs <;> first | rfl | tauto
  · simp only [wpscanRoute]
    split_ifs <;> first | rfl | tauto

/-- Witness for C2 as amended, at `additional_args = ";id"` on all eight
checking routes. -/
theorem additional_args_shell_meta_rejected_witness :
    (nmapRoute { additional_args := ";id" }).rejectStatus = some 400 ∧
    (gobusterRoute { additional_args := ";id" }).rejectStatus = some 400 ∧
    (dirbRoute { additional_args := ";id" }).rejectStatus = some 400 ∧
    (niktoRoute { additional_args := ";id" }).rejectStatus = some 400 ∧
    (sqlmapRoute { additional_args := ";id" }).rejectStatus = some 400 ∧
    (hydraRoute { additional_args := ";id" }).rejectStatus = some 400 ∧
    (johnRoute { additional_args := ";id" }).rejectStatus = some 400 ∧
    (wpscanRoute { additional_args := ";id" }).rejectStatus = some 400 ∧
    (enum4linuxRoute { target := "10.10.10.10", additional_args := ";id" }).isExec = true :=
  additional_args_shell_meta_rejected
    { additional_args := ";id" } { additional_args := ";id" } { additional_args := ";id" }
    { additional_args := ";id" } { additional_args := ";id" } { additional_args := ";id" }
    { additional_args := ";id" } { additional_args := ";id" }
    (by decide) (by decide) (by decide) (by decide) (by decide) (by decide)
    (by decide) (by decide) (by decide) (by decide) (by decide) (by decide)
    (by decide) (by decide) (by decide) (by decide)

/-- C4 counterexample: `'é'` (U+00E9) is outside the spec's class
`[A-Za-z0-9._-:]`, yet Python's Unicode-aware `str.isalnum` accepts it, so
the nmap route passes target `"é"` through validation and invokes the
Executor with `"nmap -sV é"` instead of rejecting with 400. -/
theorem target_allowlist_unicode_counterexample :
    specTargetChar 'é' = false ∧
    pyIsAlnum 'é' = true ∧
    nmapRoute { target := "é" } = .exec "nmap -sV é" := by
  decide

set_option maxHeartbeats 1600000 in
/-- C4 as amended: for the three routes that validate a target field (nmap,
hydra, enum4linux), a target containing any *ASCII* character outside
`[A-Za-z0-9._-:]` is rejected with HTTP 400 before the Executor is invoked
(for nmap and enum4linux with the `"Invalid target parameter"` error; for
hydra possibly with an earlier missing-parameter 400).  Non-ASCII
alphanumeric characters, which Python's `str.isalnum` accepts, can pass the
check even though they are outside that set. -/
theorem ascii_target_outside_class_rejected (pn : NmapParams) (ph : HydraParams)
    (pe : Enum4linuxParams) (c : Char) (hascii : c.toNat < 128)
    (hc : specTargetChar c = false) :
    (c ∈ pn.target.data → nmapRoute pn = .reject 400 "Invalid target parameter") ∧
    (c ∈ ph.target.data → (hydraRoute ph).rejectStatus = some 400) ∧
    (c ∈ pe.target.data → enum4linuxRoute pe = .reject 400 "Invalid target parameter") := by
  refine ⟨fun hm => ?_, fun hm => ?_, fun hm => ?_⟩
  · have hne := String.ne_empty_of_mem_data hm
    have hall := pyAllChars_eq_false_of_mem (p := fun c => pyIsAlnum c || pyIn c ".-_")
      hm (nmap_target_char_fails hascii hc)
    have hcheck : (!pyAllChars pn.target fun c => pyIsAlnum c || pyIn c ".-_") = true := by
      simp [hall]
    simp only [nmapRoute]
    split_ifs <;> first | rfl | tauto
  · have hall := pyAllChars_eq_false_of_mem (p := fun c => pyIsAlnum c || pyIn c ".-_:")
      hm (hydra_target_char_fails hascii hc)
    have hcheck : (!pyAllChars ph.target fun c => pyIsAlnum c || pyIn c ".-_:") = true := by
      simp [hall]
    simp only [hydraRoute]
    split_ifs <;> first | rfl | tauto
  · have hne := String.ne_empty_of_mem_data hm
    have hall := pyAllChars_eq_false_of_mem (p := fun c => pyIsAlnum c || pyIn c ".-_:")
      hm (hydra_target_char_fails hascii hc)
    have hcheck : (!pyAllChars pe.target fun c => pyIsAlnum c || pyIn c ".-_:") = true := by
      simp [hall]
    simp only [enum4linuxRoute]
    split_ifs <;> first | rfl | tauto

/-- Witness for C4 as amended at the ASCII character `';'` in target
`"10.10.10.10;"`. -/
theorem ascii_target_outside_class_rejected_witness :
    (';' ∈ ("10.10.10.10;" : String).data →
      nmapRoute { target := "10.10.10.10;" } = .reject 400 "Invalid target parameter") ∧
    (';' ∈ ("10.10.10.10;" : String).data →
      (hydraRoute { target := "10.10.10.10;" }).rejectStatus = some 400) ∧
    (';' ∈ ("10.10.10.10;" : String).data →
      enum4linuxRoute { target := "10.10.10.10;" } = .reject 400 "Invalid target parameter") :=
  ascii_target_outside_class_rejected
    { target := "10.10.10.10;" } { target := "10.10.10.10;" } { target := "10.10.10.10;" }
    ';' (by decide) (by decide)

/-- C5 counterexample: the `url`/`target` parameters of gobuster, dirb,
sqlmap, nikto and wpscan undergo no character validation at all: the value
`";"` — outside any per-field character allow-list — is accepted and
concatenated into the executed command on all five routes instead of being
rejected with 400. -/
theorem url_params_unvalidated_counterexample :
    specTargetChar ';' = false ∧
    gobusterRoute { url := ";" } =
      .exec "gobuster dir -u ; -w /usr/share/wordlists/dirb/common.txt" ∧
    dirbRoute { url := ";" } = .exec "dirb ; /usr/share/wordlists/dirb/common.txt" ∧
    sqlmapRoute { url := ";" } = .exec "sqlmap -u ;" ∧
    niktoRoute { target := ";" } = .exec "nikto -h ;" ∧
    wpscanRoute { url := ";" } = .exec "wpscan --url ;" := by
  decide

set_option maxHeartbeats 1600000 in
/-- C5 as amended: the free-text parameters checked against per-field
character allow-lists are the target fields of nmap, hydra and enum4linux,
the module path of metasploit, and the format string of john — for these, a
value containing an ASCII character outside the field's allow-list draws an
HTTP 400 before the Executor is invoked.  The `url`/`target` parameters of
gobuster, dirb, sqlmap, nikto and wpscan are not character-checked: the
out-of-allow-list value `";"` reaches the executed command line on all
five. -/
theorem free_text_allowlist_coverage (pn : NmapParams) (ph : HydraParams)
    (pe : Enum4linuxParams) (pm : MetasploitParams) (pj : JohnParams) (c : Char)
    (hascii : c.toNat < 128) :
    (specTargetChar c = false → c ∈ pn.target.data →
      (nmapRoute pn).rejectStatus = some 400) ∧
    (specTargetChar c = false → c ∈ ph.target.data →
      (hydraRoute ph).rejectStatus = some 400) ∧
    (specTargetChar c = false → c ∈ pe.target.data →
      (enum4linuxRoute pe).rejectStatus = some 400) ∧
    (specModuleChar c = false → c ∈ pm.module.data →
      (metasploitRoute pm).rejectStatus = some 400) ∧
    (specFormatChar c = false → c ∈ pj.format_type.data →
      (johnRoute pj).rejectStatus = some 400) ∧
    (gobusterRoute { url := ";" }).isExec = true ∧
    (dirbRoute { url := ";" }).isExec = true ∧
    (sqlmapRoute { url := ";" }).isExec = true ∧
    (niktoRoute { target := ";" }).isExec = true ∧
    (wpscanRoute { url := ";" }).isExec = true := by
  refine ⟨fun hc hm => ?_, fun hc hm => ?_, fun hc hm => ?_, fun hc hm => ?_,
    fun hc hm => ?_, by decide, by decide, by decide, by decide, by decide⟩
  · have hall := pyAllChars_eq_false_of_mem (p := fun c => pyIsAlnum c || pyIn c ".-_")
      hm (nmap_target_char_fails hascii hc)
    have hcheck : (!pyAllChars pn.target fun c => pyIsAlnum c || pyIn c ".-_") = true := by
      simp [hall]
    simp only [nmapRoute]
    split_ifs <;> first | rfl | tauto
  · have hall := pyAllChars_eq_false_of_mem (p := fun c => pyIsAlnum c || pyIn c ".-_:")
      hm (hydra_target_char_fails hascii hc)
    have hcheck : (!pyAllChars ph.target fun c => pyIsAlnum c || pyIn c ".-_:") = true := by
      simp [hall]
    simp only [hydraRoute]
    split_ifs <;> first | rfl | tauto
  · have hall := pyAllChars_eq_false_of_mem (p := fun c => pyIsAlnum c || pyIn c ".-_:")
      hm (hydra_target_char_fails hascii hc)
    have hcheck : (!pyAllChars pe.target fun c => pyIsAlnum c || pyIn c ".-_:") = true := by
      simp [hall]
    simp only [enum4linuxRoute]
    split_ifs <;> first | rfl | tauto
  · have hall := pyAllChars_eq_false_of_mem (p := fun c => pyIsAlnum c || pyIn c "/._-")
      hm (module_char_fails hascii hc)
    have hcheck : (!pyAllChars pm.module fun c => pyIsAlnum c || pyIn c "/._-") = true := by
      simp [hall]
    simp only [metasploitRoute]
    split_ifs <;> first | rfl | tauto
  · have hne := String.ne_empty_of_mem_data hm
    have hall := pyAllChars_eq_false_of_mem (p := fun c => pyIsAlnum c || pyIn c "-_")
      hm (format_char_fails hascii hc)
    have hcheck : (!pyAllChars pj.format_type fun c => pyIsAlnum c || pyIn c "-_") = true := by
      simp [hall]
    simp only [johnRoute]
    split_ifs <;> first | rfl | tauto

/-- Witness for C5 as amended at the ASCII character `';'`. -/
theorem free_text_allowlist_coverage_witness :
    (specTargetChar ';' = false → ';' ∈ (";" : String).data →
      (nmapRoute { target := ";" }).rejectStatus = some 400) ∧
    (specTargetChar ';' = false → ';' ∈ (";" : String).data →
      (hydraRoute { target := ";" }).rejectStatus = some 400) ∧
    (specTargetChar ';' = false → ';' ∈ (";" : String).data →
      (enum4linuxRoute { target := ";" }).rejectStatus = some 400) ∧
    (specModuleChar ';' = false → ';' ∈ (";" : String).data →
      (metasploitRoute { module := ";" }).rejectStatus = some 400) ∧
    (specFormatChar ';' = false → ';' ∈ (";" : String).data →
      (johnRoute { format_type := ";" }).rejectStatus = some 400) ∧
    (gobusterRoute { url := ";" }).isExec = true ∧
    (dirbRoute { url := ";" }).isExec = true ∧
    (sqlmapRoute { url := ";" }).isExec = true ∧
    (niktoRoute { target := ";" }).isExec = true ∧
    (wpscanRoute { url := ";" }).isExec = true :=
  free_text_allowlist_coverage { target := ";" } { target := ";" } { target := ";" }
    { module := ";" } { format_type := ";" } ';' (by decide)

/-- C6 counterexample: for the unknown tool name `"nosuchtool"` the Gateway
does respond 400, but the Dispatch Service's own
`/mcp/tools/kali_tools/<tool_name>` route is the stub `pass`: it returns
Python `None` — no `(status, body)` pair at all, in particular not an HTTP
400 response as the claim states. -/
theorem dispatch_mcp_route_stub_counterexample :
    toolRegistered "nosuchtool" = false ∧
    kali_api_execute_tool "nosuchtool" = none ∧
    mcp_execute_tool "nosuchtool" (.response 200) (.connError "") =
      .reject 400 "Unknown tool: nosuchtool" := by
  decide

/-- C6 as amended: for every tool name not in the registry, the Gateway's
`/mcp/tools/kali_tools/<tool_name>` route responds HTTP 400 without
attempting the health probe or the forward POST (so no OS process is
spawned for the request); the Dispatch Service's route of the same path is
an unimplemented stub that returns no response of its own (hence no 400)
for any tool name and never reaches `execute_command`. -/
theorem gateway_unknown_tool_rejected (tool_name : String) (probe : ProbeOutcome)
    (upstream : UpstreamOutcome) (h : toolRegistered tool_name = false) :
    mcp_execute_tool tool_name probe upstream =
      .reject 400 ("Unknown tool: " ++ tool_name) ∧
    kali_api_execute_tool tool_name = none := by
  constructor
  · simp [mcp_execute_tool, h]
  · rfl

/-- Witness for C6 as amended at `"nosuchtool"`. -/
theorem gateway_unknown_tool_rejected_witness :
    mcp_execute_tool "nosuchtool" (.response 200) (.connError "") =
      .reject 400 ("Unknown tool: " ++ "nosuchtool") ∧
    kali_api_execute_tool "nosuchtool" = none :=
  gateway_unknown_tool_rejected "nosuchtool" (.response 200) (.connError "") (by decide)

/-- C7: for a registered tool, if the Gateway's short-timeout health probe
of the Dispatch Service raises a connection error or returns a non-200
status, the Gateway responds HTTP 503; the response is the same whatever
the forward POST would have returned (first conjunct of each pair), which
is the embedded form of "the forward POST is never attempted". -/
theorem gateway_health_probe_fail_fast (tool_name msg : String) (s : Nat)
    (u u' : UpstreamOutcome) (hreg : toolRegistered tool_name = true)
    (hs : s ≠ 200) :
    (mcp_execute_tool tool_name (.connError msg) u =
        mcp_execute_tool tool_name (.connError msg) u' ∧
      mcp_execute_tool tool_name (.connError msg) u =
        .reject 503 ("API server is not responding: " ++ msg)) ∧
    (mcp_execute_tool tool_name (.response s) u =
        mcp_execute_tool tool_name (.response s) u' ∧
      mcp_execute_tool tool_name (.response s) u =
        .reject 503 ("API server health check failed: " ++ toString s)) := by
  refine ⟨⟨?_, ?_⟩, ⟨?_, ?_⟩⟩ <;> simp [mcp_execute_tool, hreg, hs]

/-- Witness for C7: Dispatch down (probe raises) and Dispatch unhealthy
(probe returns 500), for the registered tool `"nmap"`. -/
theorem gateway_health_probe_fail_fast_witness :
    (mcp_execute_tool "nmap" (.connError "connection refused") (.connError "x") =
        mcp_execute_tool "nmap" (.connError "connection refused")
          (.response 200 (some (execute_command .timedOut)) "") ∧
      mcp_execute_tool "nmap" (.connError "connection refused") (.connError "x") =
        .reject 503 ("API server is not responding: " ++ "connection refused")) ∧
    (mcp_execute_tool "nmap" (.response 500) (.connError "x") =
        mcp_execute_tool "nmap" (.response 500)
          (.response 200 (some (execute_command .timedOut)) "") ∧
      mcp_execute_tool "nmap" (.response 500) (.connError "x") =
        .reject 503 ("API server health check failed: " ++ toString 500)) :=
  gateway_health_probe_fail_fast "nmap" "connection refused" 500 (.connError "x")
    (.response 200 (some (execute_command .timedOut)) "") (by decide) (by decide)

/-- C8: when the Gateway forwards a request for a registered tool and the
Dispatch Service responds HTTP 200 whose body is the `ExecutionResult` the
Dispatch Executor produced (for any subprocess outcome `o`), the Gateway
responds HTTP 200 with `{status:"success", tool, results}` where the
`results` record — its `stdout` field in particular — is that very
`ExecutionResult`, unchanged. -/
theorem gateway_stdout_passthrough (tool_name text : String) (o : ProcOutcome)
    (hreg : toolRegistered tool_name = true) :
    mcp_execute_tool tool_name (.response 200)
        (.response 200 (some (execute_command o)) text) =
      .afterForward 200 true tool_name (some (execute_command o)) "" ∧
    (mcp_execute_tool tool_name (.response 200)
          (.response 200 (some (execute_command o)) text)).results?.map
        ExecutionResult.stdout =
      some (execute_command o).stdout := by
  constructor
  · simp [mcp_execute_tool, hreg]
  · simp [mcp_execute_tool, hreg, GatewayOutcome.results?]

/-- Witness for C8 at tool `"nmap"` and a completed subprocess. -/
theorem gateway_stdout_passthrough_witness :
    mcp_execute_tool "nmap" (.response 200)
        (.response 200 (some (execute_command (.completed "scan output" "" 0))) "raw") =
      .afterForward 200 true "nmap"
        (some (execute_command (.completed "scan output" "" 0))) "" ∧
    (mcp_execute_tool "nmap" (.response 200)
          (.response 200 (some (execute_command (.completed "scan output" "" 0))) "raw")).results?.map
        ExecutionResult.stdout =
      some (execute_command (.completed "scan output" "" 0)).stdout :=
  gateway_stdout_passthrough "nmap" "raw" (.completed "scan output" "" 0) (by decide)
